import Mathlib

/-
Verification of the box-clamping / visual-extent reconciliation logic of
bin/VTKPolyData_dipy.py and of the tractogram conversion workflow of
ddipy/workflows/track_convert.py, as a shallow embedding in Lean 4.
-/

set_option maxHeartbeats 1600000

namespace Dtdipy

/-- A 6-integer axis box `[x0, x1, y0, y1, z0, z1]` (inclusive voxel bounds,
`-1` meaning "unconstrained"), as manipulated by `set_box_on_shape` and
`update_visualbox` in bin/VTKPolyData_dipy.py. -/
structure Box6 where
  x0 : Int
  x1 : Int
  y0 : Int
  y1 : Int
  z0 : Int
  z1 : Int
  deriving DecidableEq, Repr

/-- A 3-element voxel-grid shape (entries of `data.shape`). -/
structure Shape3 where
  s0 : Int
  s1 : Int
  s2 : Int
  deriving DecidableEq, Repr

/-- One loop iteration of `set_box_on_shape` (lines 96-100): check
`box[2*i] > box[2*i+1]` (raising on failure), then clamp the lower bound with
`max(box[2*i], 0)` and set the upper bound to `shape[i]-1` when it is negative,
else `min(box[2*i+1], shape[i]-1)`. -/
def clampAxis (l u s : Int) : Option (Int × Int) :=
  if l > u then none
  else some (max l 0, if u < 0 then s - 1 else min u (s - 1))

/-- `set_box_on_shape(box, shape)` from bin/VTKPolyData_dipy.py lines 93-100,
with the `for i in range(3)` loop unrolled over the three axes; in-place
mutation is modelled by returning the corrected box, and the `raise` by
`none`.  Each axis's check and clamp reads only that axis's original slots. -/
def set_box_on_shape (box : Box6) (shape : Shape3) : Option Box6 :=
  match clampAxis box.x0 box.x1 shape.s0 with
  | none => none
  | some ax =>
    match clampAxis box.y0 box.y1 shape.s1 with
    | none => none
    | some ay =>
      match clampAxis box.z0 box.z1 shape.s2 with
      | none => none
      | some az => some ⟨ax.1, ax.2, ay.1, ay.2, az.1, az.2⟩

/-- The all-`-1` sentinel box (`box == [-1]*len(box)` in `update_visualbox`). -/
def allNegOne : Box6 := ⟨-1, -1, -1, -1, -1, -1⟩

/-- First per-axis pass of `update_visualbox` (lines 111-118): if the extent is
a slice plane (`vbox[2*i] == vbox[2*i+1]`) lying outside the box on that axis,
collapse it to `(-1, -1)`; `(a, b)` are the box's bounds and `(l, u)` the
extent's bounds on the axis. -/
def hideSliceAxis (a b l u : Int) : Int × Int :=
  if l = u then
    if 0 ≤ a ∧ 0 ≤ b ∧ ¬(a ≤ l ∧ l ≤ b) then (-1, -1)
    else if a < 0 ∧ 0 ≤ b ∧ ¬(l ≤ b) then (-1, -1)
    else if 0 ≤ a ∧ b < 0 ∧ ¬(a ≤ l) then (-1, -1)
    else (l, u)
  else (l, u)

/-- Second per-axis pass of `update_visualbox` (lines 121-125): intersect the
extent with the box, skipping any bound that is `-1` in box or extent. -/
def intersectAxis (a b l u : Int) : Int × Int :=
  (if l ≠ -1 ∧ a ≠ -1 then max a l else l,
   if u ≠ -1 ∧ b ≠ -1 then min b u else u)

/-- `update_visualbox(box, vbox)` from bin/VTKPolyData_dipy.py lines 103-125:
return `vbox` unchanged when `box` is the all-`-1` sentinel, otherwise run the
slice-hiding pass and then the intersection pass on each axis (the two
`for i in range(3)` loops are unrolled; each axis's slots are touched only by
that axis's iteration, so the passes act axis-wise). -/
def update_visualbox (box vbox : Box6) : Box6 :=
  if box = allNegOne then vbox
  else
    let h0 := hideSliceAxis box.x0 box.x1 vbox.x0 vbox.x1
    let h1 := hideSliceAxis box.y0 box.y1 vbox.y0 vbox.y1
    let h2 := hideSliceAxis box.z0 box.z1 vbox.z0 vbox.z1
    let i0 := intersectAxis box.x0 box.x1 h0.1 h0.2
    let i1 := intersectAxis box.y0 box.y1 h1.1 h1.2
    let i2 := intersectAxis box.z0 box.z1 h2.1 h2.2
    ⟨i0.1, i0.2, i1.1, i1.2, i2.1, i2.2⟩

/-- The combined action of `update_visualbox` on a single axis: slice-hiding
pass followed by the intersection pass. -/
def updateAxis (a b l u : Int) : Int × Int :=
  let h := hideSliceAxis a b l u
  intersectAxis a b h.1 h.2

/-- Bounds of a box on axis `i` (0 = x, 1 = y, 2 = z). -/
def axisOf (b : Box6) (i : Fin 3) : Int × Int :=
  if i.val = 0 then (b.x0, b.x1)
  else if i.val = 1 then (b.y0, b.y1)
  else (b.z0, b.z1)

/-- The spec's per-axis box-membership condition: the plane coordinate `p`
lies in the box range `(a, b)`, a negative bound being unconstrained on its
side. -/
def boxContains (a b p : Int) : Prop := (a < 0 ∨ a ≤ p) ∧ (b < 0 ∨ p ≤ b)

instance (a b p : Int) : Decidable (boxContains a b p) := by
  unfold boxContains; infer_instance

/-- A box whose every slot is either the `-1` sentinel or a genuine
non-negative voxel bound (the representation the CLI produces for well-formed
`--box` input). -/
def sentinelBounds (box : Box6) : Prop :=
  (box.x0 = -1 ∨ 0 ≤ box.x0) ∧ (box.x1 = -1 ∨ 0 ≤ box.x1) ∧
  (box.y0 = -1 ∨ 0 ≤ box.y0) ∧ (box.y1 = -1 ∨ 0 ≤ box.y1) ∧
  (box.z0 = -1 ∨ 0 ≤ box.z0) ∧ (box.z1 = -1 ∨ 0 ≤ box.z1)

instance (box : Box6) : Decidable (sentinelBounds box) := by
  unfold sentinelBounds; infer_instance

/-- The display extents one slider callback pushes to the three layer kinds
(`none` when that layer kind is not active). -/
structure SliceUpdate where
  image_extent : Option Box6
  tensor_extent : Option Box6
  sh_extent : Option Box6
  deriving DecidableEq, Repr

/-- `change_slice_x` from bin/VTKPolyData_dipy.py lines 407-416: build the raw
x-plane extent `[x, x, 0, shape[1]-1, 0, shape[2]-1]`, reconcile it with the
box via `update_visualbox`, then push the RAW extent to `image_actor_x` (the
source passes the literal values, not `vbox`) and the reconciled `vbox` to
`tensor_actor_x` and `sh_actor_x`, each only when that input is active. -/
def change_slice_x (has_image has_tensor has_sh : Bool) (box : Box6) (shape : Shape3)
    (x : Int) : SliceUpdate :=
  let vbox : Box6 := ⟨x, x, 0, shape.s1 - 1, 0, shape.s2 - 1⟩
  let vbox2 := update_visualbox box vbox
  { image_extent := if has_image then some ⟨x, x, 0, shape.s1 - 1, 0, shape.s2 - 1⟩ else none,
    tensor_extent := if has_tensor then some vbox2 else none,
    sh_extent := if has_sh then some vbox2 else none }

/-- `change_slice_y` from bin/VTKPolyData_dipy.py lines 418-427 (same shape as
`change_slice_x`, for the y axis). -/
def change_slice_y (has_image has_tensor has_sh : Bool) (box : Box6) (shape : Shape3)
    (y : Int) : SliceUpdate :=
  let vbox : Box6 := ⟨0, shape.s0 - 1, y, y, 0, shape.s2 - 1⟩
  let vbox2 := update_visualbox box vbox
  { image_extent := if has_image then some ⟨0, shape.s0 - 1, y, y, 0, shape.s2 - 1⟩ else none,
    tensor_extent := if has_tensor then some vbox2 else none,
    sh_extent := if has_sh then some vbox2 else none }

/-- `change_slice_z` from bin/VTKPolyData_dipy.py lines 429-438 (same shape as
`change_slice_x`, for the z axis). -/
def change_slice_z (has_image has_tensor has_sh : Bool) (box : Box6) (shape : Shape3)
    (z : Int) : SliceUpdate :=
  let vbox : Box6 := ⟨0, shape.s0 - 1, 0, shape.s1 - 1, z, z⟩
  let vbox2 := update_visualbox box vbox
  { image_extent := if has_image then some ⟨0, shape.s0 - 1, 0, shape.s1 - 1, z, z⟩ else none,
    tensor_extent := if has_tensor then some vbox2 else none,
    sh_extent := if has_sh then some vbox2 else none }

/-- Python's lexicographic comparison of two 3-tuples of integers, as used by
the builtin `min` on `shape` tuples. -/
def shapeTupleLt (a b : Shape3) : Bool :=
  if a.s0 < b.s0 then true
  else if b.s0 < a.s0 then false
  else if a.s1 < b.s1 then true
  else if b.s1 < a.s1 then false
  else decide (a.s2 < b.s2)

/-- Python's builtin `min(a, b)` on two shape tuples: `b` when `b < a`
lexicographically, else `a`. -/
def pythonMinShape (a b : Shape3) : Shape3 :=
  if shapeTupleLt b a then b else a

/-- The shape-mismatch reconciliation in `main` (bin/VTKPolyData_dipy.py lines
551-553 and 563-565): when the other volume's grid shape differs from the image
shape, print a warning (modelled by the Boolean) and set
`shape = min(shape, other_shape)` with Python's tuple `min`; otherwise keep the
image shape with no warning.  The run continues either way. -/
def reconcileShapes (image_shape other_shape : Shape3) : Bool × Shape3 :=
  if other_shape ≠ image_shape then (true, pythonMinShape image_shape other_shape)
  else (false, image_shape)

/-- Modelled from the spec's words, for comparison with the code's
`reconcileShapes`: the element-wise minimum of two shapes ("the run shape
becomes the element-wise minimum of the mismatched shapes"). -/
def elementwiseMinShape (a b : Shape3) : Shape3 :=
  ⟨min a.s0 b.s0, min a.s1 b.s1, min a.s2 b.s2⟩

/-- A tractogram: a bag of streamlines over an abstract point type. -/
structure Tractogram (Pt : Type) where
  streamlines : List (List Pt)
  deriving DecidableEq, Repr

/-- One saved conversion: the path actually passed to `save_tractogram`, the
path reported by the `Track saved at ...` log message, and the tractogram
written. -/
structure ConvertResult (Pt : Type) where
  saved_path : String
  logged_path : String
  track : Tractogram Pt
  deriving DecidableEq, Repr

/-- The body of one iteration of `TrackConvertFlow.run`
(ddipy/workflows/track_convert.py lines 46-50): load the tractogram, and when
`reference != 'same' and vox`, load the reference nifti's affine and replace
the streamlines by `transform_streamlines(streamlines, np.linalg.inv(affine))`.
The external dipy/numpy collaborators are opaque parameters. -/
def trackConvertOnce {Pt Aff : Type}
    (load_tractogram : String → String → Tractogram Pt)
    (load_nifti_affine : String → Aff)
    (linalg_inv : Aff → Aff)
    (transform_streamlines : Aff → List (List Pt) → List (List Pt))
    (input_path reference : String) (vox : Bool) : Tractogram Pt :=
  let track := load_tractogram input_path reference
  if reference ≠ "same" ∧ vox = true then
    { streamlines :=
        transform_streamlines (linalg_inv (load_nifti_affine reference)) track.streamlines }
  else track

/-- `TrackConvertFlow.run` (ddipy/workflows/track_convert.py lines 40-54): loop
over the `(input_path, out_track_path)` pairs of the I/O iterator; for each,
convert and call `save_tractogram(track, out_track, ...)` — the fixed
`out_track` argument — while the closing log message names `out_track_path`. -/
def trackConvertRun {Pt Aff : Type}
    (load_tractogram : String → String → Tractogram Pt)
    (load_nifti_affine : String → Aff)
    (linalg_inv : Aff → Aff)
    (transform_streamlines : Aff → List (List Pt) → List (List Pt))
    (io_it : List (String × String)) (out_track reference : String) (vox : Bool) :
    List (ConvertResult Pt) :=
  io_it.map fun p =>
    { saved_path := out_track,
      logged_path := p.2,
      track := trackConvertOnce load_tractogram load_nifti_affine linalg_inv
        transform_streamlines p.1 reference vox }

theorem update_visualbox_axis (box vbox : Box6) (h : box ≠ allNegOne) (i : Fin 3) :
    axisOf (update_visualbox box vbox) i =
      updateAxis (axisOf box i).1 (axisOf box i).2 (axisOf vbox i).1 (axisOf vbox i).2 := by
  rcases i with ⟨iv, hi⟩
  interval_cases iv <;>
    simp [update_visualbox, if_neg h, updateAxis, axisOf]

theorem update_visualbox_eq_axes (box : Box6) (h : box ≠ allNegOne) (vbox : Box6) :
    update_visualbox box vbox =
      ⟨(updateAxis box.x0 box.x1 vbox.x0 vbox.x1).1, (updateAxis box.x0 box.x1 vbox.x0 vbox.x1).2,
       (updateAxis box.y0 box.y1 vbox.y0 vbox.y1).1, (updateAxis box.y0 box.y1 vbox.y0 vbox.y1).2,
       (updateAxis box.z0 box.z1 vbox.z0 vbox.z1).1,
       (updateAxis box.z0 box.z1 vbox.z0 vbox.z1).2⟩ := by
  simp [update_visualbox, if_neg h, updateAxis]

theorem hideSliceAxis_intersectAxis (a b l u : Int) :
    hideSliceAxis a b (intersectAxis a b l u).1 (intersectAxis a b l u).2 =
      intersectAxis a b l u := by
  simp only [hideSliceAxis, intersectAxis]
  split_ifs <;> simp_all only [Prod.mk.injEq, not_and, not_or, not_lt, not_le] <;> omega

theorem intersectAxis_idem (a b l u : Int) :
    intersectAxis a b (intersectAxis a b l u).1 (intersectAxis a b l u).2 =
      intersectAxis a b l u := by
  unfold intersectAxis
  dsimp only
  rw [Prod.mk.injEq]
  constructor <;> split_ifs <;> omega

theorem updateAxis_idem (a b l u : Int) :
    updateAxis a b (updateAxis a b l u).1 (updateAxis a b l u).2 = updateAxis a b l u := by
  unfold updateAxis
  rw [hideSliceAxis_intersectAxis, intersectAxis_idem]

theorem updateAxis_plane (a b p : Int) (ha : a = -1 ∨ 0 ≤ a) (hb : b = -1 ∨ 0 ≤ b) :
    (boxContains a b p → updateAxis a b p p = (p, p)) ∧
    (¬ boxContains a b p → updateAxis a b p p = (-1, -1)) := by
  have hpp : hideSliceAxis a b p p =
      if 0 ≤ a ∧ 0 ≤ b ∧ ¬(a ≤ p ∧ p ≤ b) then (-1, -1)
      else if a < 0 ∧ 0 ≤ b ∧ ¬(p ≤ b) then (-1, -1)
      else if 0 ≤ a ∧ b < 0 ∧ ¬(a ≤ p) then (-1, -1)
      else (p, p) := by
    unfold hideSliceAxis
    rw [if_pos rfl]
  unfold updateAxis
  rw [hpp]
  unfold intersectAxis boxContains
  constructor <;> intro h <;>
    split_ifs <;>
      simp only [Prod.mk.injEq, not_and, not_or, not_lt, not_le, not_not] at * <;> omega

theorem updateAxis_nonplane (a b l u : Int) (h : l ≠ u) :
    updateAxis a b l u =
      (if l = -1 ∨ a = -1 then l else max a l,
       if u = -1 ∨ b = -1 then u else min b u) := by
  have hne : hideSliceAxis a b l u = (l, u) := by
    unfold hideSliceAxis
    rw [if_neg h]
  unfold updateAxis
  rw [hne]
  unfold intersectAxis
  split_ifs <;>
    simp only [Prod.mk.injEq, not_and, not_or, not_lt, not_le, not_not] at * <;> omega

theorem sentinelBounds_axis (box : Box6) (hsb : sentinelBounds box) (i : Fin 3) :
    ((axisOf box i).1 = -1 ∨ 0 ≤ (axisOf box i).1) ∧
    ((axisOf box i).2 = -1 ∨ 0 ≤ (axisOf box i).2) := by
  obtain ⟨h1, h2, h3, h4, h5, h6⟩ := hsb
  rcases i with ⟨iv, hi⟩
  interval_cases iv <;> simp [axisOf] <;> tauto

/-- C1 counterexample: the box `[10, 10, 0, 0, 0, 0]` satisfies the claim's
hypotheses against shape `(5, 5, 5)` (all bounds non-negative, lower ≤ upper on
each axis, positive shape entries), yet `set_box_on_shape` returns a box whose
x lower bound `10` lies outside `[0, 5-1]`: the code clamps the lower bound
only from below (`max(box[2*i], 0)`), never against `shape[i]-1`. -/
theorem C1_counterexample :
    (∀ i : Fin 3, 0 ≤ (axisOf ⟨10, 10, 0, 0, 0, 0⟩ i).1 ∧
      0 ≤ (axisOf ⟨10, 10, 0, 0, 0, 0⟩ i).2 ∧
      (axisOf ⟨10, 10, 0, 0, 0, 0⟩ i).1 ≤ (axisOf ⟨10, 10, 0, 0, 0, 0⟩ i).2) ∧
    set_box_on_shape ⟨10, 10, 0, 0, 0, 0⟩ ⟨5, 5, 5⟩ = some ⟨10, 4, 0, 0, 0, 0⟩ ∧
    ¬(0 ≤ (10 : Int) ∧ (10 : Int) ≤ 5 - 1) := by
  decide

/-- C1 (amended): for every box whose bounds are all non-negative with
`lower ≤ upper` per axis, every shape with positive entries, and additionally
each axis's lower bound at most `shape[axis]-1`, `set_box_on_shape` succeeds
and every bound of the resulting box lies within `[0, shape[axis]-1]`. -/
theorem C1_set_box_on_shape_in_range (box : Box6) (shape : Shape3)
    (hx : 0 ≤ box.x0 ∧ 0 ≤ box.x1 ∧ box.x0 ≤ box.x1)
    (hy : 0 ≤ box.y0 ∧ 0 ≤ box.y1 ∧ box.y0 ≤ box.y1)
    (hz : 0 ≤ box.z0 ∧ 0 ≤ box.z1 ∧ box.z0 ≤ box.z1)
    (hs : 0 < shape.s0 ∧ 0 < shape.s1 ∧ 0 < shape.s2)
    (hlo : box.x0 ≤ shape.s0 - 1 ∧ box.y0 ≤ shape.s1 - 1 ∧ box.z0 ≤ shape.s2 - 1) :
    ∃ box2, set_box_on_shape box shape = some box2 ∧
      (0 ≤ box2.x0 ∧ box2.x0 ≤ shape.s0 - 1) ∧ (0 ≤ box2.x1 ∧ box2.x1 ≤ shape.s0 - 1) ∧
      (0 ≤ box2.y0 ∧ box2.y0 ≤ shape.s1 - 1) ∧ (0 ≤ box2.y1 ∧ box2.y1 ≤ shape.s1 - 1) ∧
      (0 ≤ box2.z0 ∧ box2.z0 ≤ shape.s2 - 1) ∧ (0 ≤ box2.z1 ∧ box2.z1 ≤ shape.s2 - 1) := by
  have h0 : ¬(box.x0 > box.x1) := by omega
  have h1 : ¬(box.y0 > box.y1) := by omega
  have h2 : ¬(box.z0 > box.z1) := by omega
  have hu0 : ¬(box.x1 < 0) := by omega
  have hu1 : ¬(box.y1 < 0) := by omega
  have hu2 : ¬(box.z1 < 0) := by omega
  unfold set_box_on_shape clampAxis
  rw [if_neg h0, if_neg h1, if_neg h2, if_neg hu0, if_neg hu1, if_neg hu2]
  refine ⟨_, rfl, ?_⟩
  dsimp only
  omega

/-- C1 witness: the amended theorem applied to the box `[1, 20, 0, 4, 2, 2]`
and the shape `(10, 5, 7)`. -/
theorem C1_witness :
    ((0 ≤ (1 : Int) ∧ 0 ≤ (20 : Int) ∧ (1 : Int) ≤ 20) ∧
     (0 ≤ (0 : Int) ∧ 0 ≤ (4 : Int) ∧ (0 : Int) ≤ 4) ∧
     (0 ≤ (2 : Int) ∧ 0 ≤ (2 : Int) ∧ (2 : Int) ≤ 2) ∧
     (0 < (10 : Int) ∧ 0 < (5 : Int) ∧ 0 < (7 : Int)) ∧
     ((1 : Int) ≤ 10 - 1 ∧ (0 : Int) ≤ 5 - 1 ∧ (2 : Int) ≤ 7 - 1)) ∧
    ∃ box2, set_box_on_shape ⟨1, 20, 0, 4, 2, 2⟩ ⟨10, 5, 7⟩ = some box2 ∧
      (0 ≤ box2.x0 ∧ box2.x0 ≤ 10 - 1) ∧ (0 ≤ box2.x1 ∧ box2.x1 ≤ 10 - 1) ∧
      (0 ≤ box2.y0 ∧ box2.y0 ≤ 5 - 1) ∧ (0 ≤ box2.y1 ∧ box2.y1 ≤ 5 - 1) ∧
      (0 ≤ box2.z0 ∧ box2.z0 ≤ 7 - 1) ∧ (0 ≤ box2.z1 ∧ box2.z1 ≤ 7 - 1) :=
  ⟨⟨by decide, by decide, by decide, by decide, by decide⟩,
   C1_set_box_on_shape_in_range ⟨1, 20, 0, 4, 2, 2⟩ ⟨10, 5, 7⟩
     (by decide) (by decide) (by decide) (by decide) (by decide)⟩

/-- C4 counterexample: `set_box_on_shape` on the box `[0, -1, 0, 0, 0, 0]`
fails (the check `box[0] > box[1]` fires on `0 > -1` before the negative upper
bound could be resolved to `shape[0]-1`), although no axis has a non-negative
lower bound exceeding a non-negative upper bound — refuting both the claimed
"only if" direction and the claimed non-failure of the mixed
non-negative/negative axis. -/
theorem C4_counterexample :
    set_box_on_shape ⟨0, -1, 0, 0, 0, 0⟩ ⟨10, 10, 10⟩ = none ∧
    ¬(∃ i : Fin 3, 0 ≤ (axisOf ⟨0, -1, 0, 0, 0, 0⟩ i).1 ∧
      0 ≤ (axisOf ⟨0, -1, 0, 0, 0, 0⟩ i).2 ∧
      (axisOf ⟨0, -1, 0, 0, 0, 0⟩ i).1 > (axisOf ⟨0, -1, 0, 0, 0, 0⟩ i).2) := by
  decide

/-- C4 (amended): `set_box_on_shape` fails if and only if on some axis the raw
lower bound exceeds the raw upper bound, the `-1` sentinels included in the
comparison; in particular a non-negative lower bound with a negative upper
bound fails rather than resolving the upper bound to `shape[axis]-1`. -/
theorem C4_set_box_on_shape_none_iff (box : Box6) (shape : Shape3) :
    set_box_on_shape box shape = none ↔
      (box.x0 > box.x1 ∨ box.y0 > box.y1 ∨ box.z0 > box.z1) := by
  unfold set_box_on_shape clampAxis
  by_cases h0 : box.x0 > box.x1 <;> by_cases h1 : box.y0 > box.y1 <;>
    by_cases h2 : box.z0 > box.z1 <;> simp [h0, h1, h2]

/-- C5: `update_visualbox` is idempotent: for every 6-integer box and every
6-integer extent, applying it twice with the same box produces exactly the
same extent as applying it once. -/
theorem C5_update_visualbox_idem (box vbox : Box6) :
    update_visualbox box (update_visualbox box vbox) = update_visualbox box vbox := by
  by_cases h : box = allNegOne
  · simp [update_visualbox, h]
  · rw [update_visualbox_eq_axes box h vbox, update_visualbox_eq_axes box h]
    dsimp only
    simp only [updateAxis_idem]

/-- C6 counterexample: with the non-sentinel box `[-5, 3, -1, -1, -1, -1]` and
the extent `[-7, -7, 0, 9, 0, 9]` (an x plane at `-7`), the box's x range
contains the plane (lower bound negative, hence unconstrained per the claim;
`-7 ≤ 3`), yet `update_visualbox` yields x bounds `(-5, -7)`: the axis is
neither left unchanged nor collapsed to `(-1, -1)` — the plane is moved. -/
theorem C6_counterexample :
    (⟨-5, 3, -1, -1, -1, -1⟩ : Box6) ≠ allNegOne ∧
    (axisOf (⟨-7, -7, 0, 9, 0, 9⟩ : Box6) 0).1 = (axisOf (⟨-7, -7, 0, 9, 0, 9⟩ : Box6) 0).2 ∧
    boxContains (axisOf (⟨-5, 3, -1, -1, -1, -1⟩ : Box6) 0).1
      (axisOf (⟨-5, 3, -1, -1, -1, -1⟩ : Box6) 0).2
      (axisOf (⟨-7, -7, 0, 9, 0, 9⟩ : Box6) 0).1 ∧
    axisOf (update_visualbox ⟨-5, 3, -1, -1, -1, -1⟩ ⟨-7, -7, 0, 9, 0, 9⟩) 0 = (-5, -7) ∧
    axisOf (update_visualbox ⟨-5, 3, -1, -1, -1, -1⟩ ⟨-7, -7, 0, 9, 0, 9⟩) 0 ≠
      axisOf (⟨-7, -7, 0, 9, 0, 9⟩ : Box6) 0 ∧
    axisOf (update_visualbox ⟨-5, 3, -1, -1, -1, -1⟩ ⟨-7, -7, 0, 9, 0, 9⟩) 0 ≠ (-1, -1) := by
  decide

/-- C6 (amended): for every non-sentinel box whose slots are each `-1` or
non-negative, and every axis on which the extent is a plane: if the box's
range on that axis (a negative bound being unconstrained on its side) contains
the plane coordinate, `update_visualbox` leaves that axis unchanged; if it
excludes it, the axis becomes `(-1, -1)`; the plane is never moved. -/
theorem C6_plane_hidden_or_kept (box vbox : Box6) (i : Fin 3)
    (hbox : box ≠ allNegOne) (hsb : sentinelBounds box)
    (hplane : (axisOf vbox i).1 = (axisOf vbox i).2) :
    (boxContains (axisOf box i).1 (axisOf box i).2 (axisOf vbox i).1 →
      axisOf (update_visualbox box vbox) i = axisOf vbox i) ∧
    (¬ boxContains (axisOf box i).1 (axisOf box i).2 (axisOf vbox i).1 →
      axisOf (update_visualbox box vbox) i = (-1, -1)) := by
  obtain ⟨ha, hb⟩ := sentinelBounds_axis box hsb i
  have e := update_visualbox_axis box vbox hbox i
  rcases hv : axisOf vbox i with ⟨l, u⟩
  rcases hbx : axisOf box i with ⟨a, b⟩
  simp only [hv, hbx] at e ha hb hplane ⊢
  subst hplane
  rw [e]
  exact updateAxis_plane a b l ha hb

/-- C6 witness: the amended theorem applied to the box `[0, 4, -1, -1, -1, -1]`
and the extent `[2, 2, 0, 9, 0, 9]` on the x axis. -/
theorem C6_witness :
    ((⟨0, 4, -1, -1, -1, -1⟩ : Box6) ≠ allNegOne ∧
     sentinelBounds ⟨0, 4, -1, -1, -1, -1⟩ ∧
     (axisOf (⟨2, 2, 0, 9, 0, 9⟩ : Box6) 0).1 = (axisOf (⟨2, 2, 0, 9, 0, 9⟩ : Box6) 0).2) ∧
    ((boxContains (axisOf (⟨0, 4, -1, -1, -1, -1⟩ : Box6) 0).1
        (axisOf (⟨0, 4, -1, -1, -1, -1⟩ : Box6) 0).2
        (axisOf (⟨2, 2, 0, 9, 0, 9⟩ : Box6) 0).1 →
      axisOf (update_visualbox ⟨0, 4, -1, -1, -1, -1⟩ ⟨2, 2, 0, 9, 0, 9⟩) 0 =
        axisOf (⟨2, 2, 0, 9, 0, 9⟩ : Box6) 0) ∧
     (¬ boxContains (axisOf (⟨0, 4, -1, -1, -1, -1⟩ : Box6) 0).1
        (axisOf (⟨0, 4, -1, -1, -1, -1⟩ : Box6) 0).2
        (axisOf (⟨2, 2, 0, 9, 0, 9⟩ : Box6) 0).1 →
      axisOf (update_visualbox ⟨0, 4, -1, -1, -1, -1⟩ ⟨2, 2, 0, 9, 0, 9⟩) 0 = (-1, -1))) :=
  ⟨⟨by decide, by decide, by decide⟩,
   C6_plane_hidden_or_kept ⟨0, 4, -1, -1, -1, -1⟩ ⟨2, 2, 0, 9, 0, 9⟩ 0
     (by decide) (by decide) (by decide)⟩

/-- C7: for every non-sentinel box and every axis on which the extent is not a
plane, `update_visualbox` leaves each bound untouched when that bound is `-1`
in either the box or the extent, and otherwise sets the lower bound to
`max(box.lower, extent.lower)` and the upper bound to
`min(box.upper, extent.upper)`. -/
theorem C7_nonplane_intersection (box vbox : Box6) (i : Fin 3)
    (hbox : box ≠ allNegOne)
    (hnp : (axisOf vbox i).1 ≠ (axisOf vbox i).2) :
    axisOf (update_visualbox box vbox) i =
      (if (axisOf vbox i).1 = -1 ∨ (axisOf box i).1 = -1 then (axisOf vbox i).1
       else max (axisOf box i).1 (axisOf vbox i).1,
       if (axisOf vbox i).2 = -1 ∨ (axisOf box i).2 = -1 then (axisOf vbox i).2
       else min (axisOf box i).2 (axisOf vbox i).2) := by
  have e := update_visualbox_axis box vbox hbox i
  rcases hv : axisOf vbox i with ⟨l, u⟩
  rcases hbx : axisOf box i with ⟨a, b⟩
  simp only [hv, hbx] at e hnp ⊢
  rw [e]
  exact updateAxis_nonplane a b l u hnp

/-- C7 witness: the theorem applied to the box `[3, 8, -1, -1, -1, -1]` and the
extent `[2, 7, 0, 9, 0, 9]` on the x axis. -/
theorem C7_witness :
    ((⟨3, 8, -1, -1, -1, -1⟩ : Box6) ≠ allNegOne ∧
     (axisOf (⟨2, 7, 0, 9, 0, 9⟩ : Box6) 0).1 ≠ (axisOf (⟨2, 7, 0, 9, 0, 9⟩ : Box6) 0).2) ∧
    axisOf (update_visualbox ⟨3, 8, -1, -1, -1, -1⟩ ⟨2, 7, 0, 9, 0, 9⟩) 0 =
      (if (axisOf (⟨2, 7, 0, 9, 0, 9⟩ : Box6) 0).1 = -1 ∨
          (axisOf (⟨3, 8, -1, -1, -1, -1⟩ : Box6) 0).1 = -1 then
        (axisOf (⟨2, 7, 0, 9, 0, 9⟩ : Box6) 0).1
       else max (axisOf (⟨3, 8, -1, -1, -1, -1⟩ : Box6) 0).1
         (axisOf (⟨2, 7, 0, 9, 0, 9⟩ : Box6) 0).1,
       if (axisOf (⟨2, 7, 0, 9, 0, 9⟩ : Box6) 0).2 = -1 ∨
          (axisOf (⟨3, 8, -1, -1, -1, -1⟩ : Box6) 0).2 = -1 then
        (axisOf (⟨2, 7, 0, 9, 0, 9⟩ : Box6) 0).2
       else min (axisOf (⟨3, 8, -1, -1, -1, -1⟩ : Box6) 0).2
         (axisOf (⟨2, 7, 0, 9, 0, 9⟩ : Box6) 0).2) :=
  ⟨⟨by decide, by decide⟩,
   C7_nonplane_intersection ⟨3, 8, -1, -1, -1, -1⟩ ⟨2, 7, 0, 9, 0, 9⟩ 0
     (by decide) (by decide)⟩

/-- C2 counterexample: with box `[0, 4, -1, -1, -1, -1]`, shape `(10, 10, 10)`
and the x slider moved to `5`, the reconciled extent pushed to the tensor layer
is `[-1, -1, 0, 9, 0, 9]` (the plane is hidden), while the image layer receives
the raw `[5, 5, 0, 9, 0, 9]` — the same reconciled extent is not applied to
every active layer type and the image shows a different plane. -/
theorem C2_counterexample :
    (change_slice_x true true true ⟨0, 4, -1, -1, -1, -1⟩ ⟨10, 10, 10⟩ 5).tensor_extent =
      some ⟨-1, -1, 0, 9, 0, 9⟩ ∧
    (change_slice_x true true true ⟨0, 4, -1, -1, -1, -1⟩ ⟨10, 10, 10⟩ 5).image_extent =
      some ⟨5, 5, 0, 9, 0, 9⟩ ∧
    (change_slice_x true true true ⟨0, 4, -1, -1, -1, -1⟩ ⟨10, 10, 10⟩ 5).image_extent ≠
      (change_slice_x true true true ⟨0, 4, -1, -1, -1, -1⟩ ⟨10, 10, 10⟩ 5).tensor_extent := by
  decide

/-- C2 (amended): when a slice-position slider changes, the extent reconciled
by `update_visualbox` against the fixed box is applied to the active tensor and
SH layers — which therefore always agree — while the active image layer
receives the raw slice extent, not reconciled with the box; the three layer
types coincide only when `update_visualbox` leaves the raw extent unchanged. -/
theorem C2_slider_extent_wiring (hi ht hs : Bool) (box : Box6) (shape : Shape3)
    (x y z : Int) :
    ((change_slice_x hi ht hs box shape x).tensor_extent =
        (if ht then some (update_visualbox box ⟨x, x, 0, shape.s1 - 1, 0, shape.s2 - 1⟩)
         else none) ∧
     (change_slice_x hi ht hs box shape x).sh_extent =
        (if hs then some (update_visualbox box ⟨x, x, 0, shape.s1 - 1, 0, shape.s2 - 1⟩)
         else none) ∧
     (change_slice_x hi ht hs box shape x).image_extent =
        (if hi then some ⟨x, x, 0, shape.s1 - 1, 0, shape.s2 - 1⟩ else none)) ∧
    ((change_slice_y hi ht hs box shape y).tensor_extent =
        (if ht then some (update_visualbox box ⟨0, shape.s0 - 1, y, y, 0, shape.s2 - 1⟩)
         else none) ∧
     (change_slice_y hi ht hs box shape y).sh_extent =
        (if hs then some (update_visualbox box ⟨0, shape.s0 - 1, y, y, 0, shape.s2 - 1⟩)
         else none) ∧
     (change_slice_y hi ht hs box shape y).image_extent =
        (if hi then some ⟨0, shape.s0 - 1, y, y, 0, shape.s2 - 1⟩ else none)) ∧
    ((change_slice_z hi ht hs box shape z).tensor_extent =
        (if ht then some (update_visualbox box ⟨0, shape.s0 - 1, 0, shape.s1 - 1, z, z⟩)
         else none) ∧
     (change_slice_z hi ht hs box shape z).sh_extent =
        (if hs then some (update_visualbox box ⟨0, shape.s0 - 1, 0, shape.s1 - 1, z, z⟩)
         else none) ∧
     (change_slice_z hi ht hs box shape z).image_extent =
        (if hi then some ⟨0, shape.s0 - 1, 0, shape.s1 - 1, z, z⟩ else none)) :=
  ⟨⟨rfl, rfl, rfl⟩, ⟨rfl, rfl, rfl⟩, ⟨rfl, rfl, rfl⟩⟩

/-- C3 counterexample: for image shape `(5, 100, 100)` and tensor shape
`(6, 2, 2)`, the code keeps `(5, 100, 100)` — Python's `min` on tuples is
lexicographic — whereas the claimed element-wise minimum is `(5, 2, 2)`. -/
theorem C3_counterexample :
    reconcileShapes ⟨5, 100, 100⟩ ⟨6, 2, 2⟩ = (true, ⟨5, 100, 100⟩) ∧
    elementwiseMinShape ⟨5, 100, 100⟩ ⟨6, 2, 2⟩ = ⟨5, 2, 2⟩ ∧
    (reconcileShapes ⟨5, 100, 100⟩ ⟨6, 2, 2⟩).2 ≠
      elementwiseMinShape ⟨5, 100, 100⟩ ⟨6, 2, 2⟩ := by
  decide

/-- C3 (amended): a grid-shape mismatch between two volumetric inputs is
non-fatal — a warning is flagged and the run shape becomes Python's `min` of
the two shape tuples, i.e. the lexicographically smaller whole tuple (always
one of the two operands), not the element-wise minimum. -/
theorem C3_shape_mismatch_warning_lexmin (image_shape other_shape : Shape3)
    (h : other_shape ≠ image_shape) :
    reconcileShapes image_shape other_shape =
      (true, pythonMinShape image_shape other_shape) ∧
    (pythonMinShape image_shape other_shape = image_shape ∨
     pythonMinShape image_shape other_shape = other_shape) := by
  constructor
  · unfold reconcileShapes
    rw [if_pos h]
  · unfold pythonMinShape
    split_ifs
    · exact Or.inr rfl
    · exact Or.inl rfl

/-- C3 witness: the amended theorem applied to image shape `(5, 100, 100)` and
mismatched tensor shape `(6, 2, 2)`. -/
theorem C3_witness :
    ((⟨6, 2, 2⟩ : Shape3) ≠ ⟨5, 100, 100⟩) ∧
    (reconcileShapes ⟨5, 100, 100⟩ ⟨6, 2, 2⟩ =
        (true, pythonMinShape ⟨5, 100, 100⟩ ⟨6, 2, 2⟩) ∧
     (pythonMinShape ⟨5, 100, 100⟩ ⟨6, 2, 2⟩ = ⟨5, 100, 100⟩ ∨
      pythonMinShape ⟨5, 100, 100⟩ ⟨6, 2, 2⟩ = ⟨6, 2, 2⟩)) :=
  ⟨by decide, C3_shape_mismatch_warning_lexmin ⟨5, 100, 100⟩ ⟨6, 2, 2⟩ (by decide)⟩

/-- C8: in the conversion workflow, when `vox` is true and the reference is not
the sentinel `'same'`, the streamlines of the loaded tractogram are transformed
by the inverse of the reference affine before saving; when `vox` is false the
tractogram passes through unmodified regardless of the reference. -/
theorem C8_vox_transform {Pt Aff : Type}
    (load_tractogram : String → String → Tractogram Pt)
    (load_nifti_affine : String → Aff) (linalg_inv : Aff → Aff)
    (transform_streamlines : Aff → List (List Pt) → List (List Pt))
    (input_path reference : String) (href : reference ≠ "same") :
    ((trackConvertOnce load_tractogram load_nifti_affine linalg_inv transform_streamlines
        input_path reference true).streamlines =
      transform_streamlines (linalg_inv (load_nifti_affine reference))
        (load_tractogram input_path reference).streamlines) ∧
    (∀ any_reference : String,
      trackConvertOnce load_tractogram load_nifti_affine linalg_inv transform_streamlines
        input_path any_reference false = load_tractogram input_path any_reference) := by
  constructor
  · unfold trackConvertOnce
    rw [if_pos ⟨href, rfl⟩]
  · intro r
    unfold trackConvertOnce
    rw [if_neg]
    intro hcon
    exact Bool.false_ne_true hcon.2

/-- C8 witness: the theorem applied to concrete loaders over `Pt = Int`,
`Aff = Int`, with reference `"ref.nii"`. -/
theorem C8_witness :
    (("ref.nii" : String) ≠ "same") ∧
    (((trackConvertOnce (fun _ _ => ⟨[[1, 2], [3]]⟩) (fun _ => (3 : Int)) (fun a => -a)
        (fun a s => s.map (fun line => line.map (· + a)))
        "in.trk" "ref.nii" true).streamlines =
      (fun a s => s.map (fun line => line.map (· + a)))
        ((fun a => -a) ((fun _ => (3 : Int)) "ref.nii"))
        ((fun _ _ => (⟨[[1, 2], [3]]⟩ : Tractogram Int)) "in.trk" "ref.nii").streamlines) ∧
     (∀ any_reference : String,
      trackConvertOnce (fun _ _ => (⟨[[1, 2], [3]]⟩ : Tractogram Int)) (fun _ => (3 : Int))
        (fun a => -a) (fun a s => s.map (fun line => line.map (· + a)))
        "in.trk" any_reference false =
        (fun _ _ => (⟨[[1, 2], [3]]⟩ : Tractogram Int)) "in.trk" any_reference)) :=
  ⟨by decide,
   C8_vox_transform (fun _ _ => ⟨[[1, 2], [3]]⟩) (fun _ => (3 : Int)) (fun a => -a)
     (fun a s => s.map (fun line => line.map (· + a))) "in.trk" "ref.nii" (by decide)⟩

/-- C9: in `TrackConvertFlow.run`, every pair yielded by the I/O iterator has
its converted tractogram saved to the fixed `out_track` argument path — not to
the per-pair output path — while the log message reports the per-pair path;
with multiple inputs every conversion is therefore written to the same file. -/
theorem C9_saved_to_fixed_out_track {Pt Aff : Type}
    (load_tractogram : String → String → Tractogram Pt)
    (load_nifti_affine : String → Aff) (linalg_inv : Aff → Aff)
    (transform_streamlines : Aff → List (List Pt) → List (List Pt))
    (io_it : List (String × String)) (out_track reference : String) (vox : Bool) :
    ((trackConvertRun load_tractogram load_nifti_affine linalg_inv transform_streamlines
        io_it out_track reference vox).map (fun r => r.saved_path) =
      io_it.map (fun _ => out_track)) ∧
    ((trackConvertRun load_tractogram load_nifti_affine linalg_inv transform_streamlines
        io_it out_track reference vox).map (fun r => r.logged_path) =
      io_it.map (fun p => p.2)) ∧
    ((trackConvertRun load_tractogram load_nifti_affine linalg_inv transform_streamlines
        io_it out_track reference vox).map (fun r => r.track) =
      io_it.map (fun p =>
        trackConvertOnce load_tractogram load_nifti_affine linalg_inv
          transform_streamlines p.1 reference vox)) := by
  unfold trackConvertRun
  refine ⟨?_, ?_, ?_⟩ <;> (rw [List.map_map]; rfl)

/-- C10: in `TrackConvertFlow.run`, when `vox` is true but the reference is the
sentinel `'same'`, no reference image is loaded and no transform is applied:
the result equals the loaded tractogram unchanged, and is independent of the
nifti loader, the matrix inverse and the streamline transform. -/
theorem C10_reference_same_no_transform {Pt Aff Aff2 : Type}
    (load_tractogram : String → String → Tractogram Pt)
    (load_nifti_affine : String → Aff) (linalg_inv : Aff → Aff)
    (transform_streamlines : Aff → List (List Pt) → List (List Pt))
    (load_nifti_affine2 : String → Aff2) (linalg_inv2 : Aff2 → Aff2)
    (transform_streamlines2 : Aff2 → List (List Pt) → List (List Pt))
    (input_path : String) :
    (trackConvertOnce load_tractogram load_nifti_affine linalg_inv transform_streamlines
        input_path "same" true = load_tractogram input_path "same") ∧
    (trackConvertOnce load_tractogram load_nifti_affine linalg_inv transform_streamlines
        input_path "same" true =
      trackConvertOnce load_tractogram load_nifti_affine2 linalg_inv2
        transform_streamlines2 input_path "same" true) := by
  have he : ∀ {A : Type} (ln : String → A) (li : A → A)
      (tr : A → List (List Pt) → List (List Pt)),
      trackConvertOnce load_tractogram ln li tr input_path "same" true =
        load_tractogram input_path "same" := by
    intro A ln li tr
    unfold trackConvertOnce
    rw [if_neg]
    intro hcon
    exact hcon.1 rfl
  exact ⟨he load_nifti_affine linalg_inv transform_streamlines,
    (he load_nifti_affine linalg_inv transform_streamlines).trans
      (he load_nifti_affine2 linalg_inv2 transform_streamlines2).symm⟩

end Dtdipy
